import Mathlib

/-!
Shallow embedding of the weather-chatbot pipeline of this repository.

The repository contains one coordinate-based weather script (`weather.py`)
and four near-identical chatbot scripts that differ only in the
language-model backend binding: `weather_bot.py` (Claude),
`weather_bot_gemini.py`, `weather_bot_openai.py` and
`ex03/weather_bot_groq.py`.  Each backend call is modelled as an oracle
supplied as a function argument: a language-model call either returns a
text completion or raises, and a weather-provider HTTP GET either returns
a response (status code plus, when the body parses, a JSON payload) or
raises a transport-level exception.  Python `float()` parsing is
abstracted as an `Option ℚ` argument.  The orchestrator additionally
returns the trace of backend invocations it performed, so that
non-invocation properties can be stated.
-/

namespace DiscoWeather

/-- Python `str.strip()` restricted to ASCII whitespace, as a structurally
recursive list traversal (Lean core's `String.trim` uses well-founded
recursion and does not kernel-reduce).  The backend replies handled by the
bots are ASCII tokens. -/
def py_strip (s : String) : String :=
  ⟨((s.data.dropWhile Char.isWhitespace).reverse.dropWhile Char.isWhitespace).reverse⟩

/-- Python `str.upper()` restricted to ASCII, as a character-list map. -/
def py_upper (s : String) : String :=
  ⟨s.data.map Char.toUpper⟩

/-- Python `str.lower()` restricted to ASCII, as a character-list map. -/
def py_lower (s : String) : String :=
  ⟨s.data.map Char.toLower⟩

/-- Outcome of one language-model backend call: a text completion, or a raised
exception carrying a message. -/
inductive LLMOutcome where
  | reply (text : String)
  | exn (msg : String)
  deriving DecidableEq

/-- Fields of the provider JSON `location` object used by the bots
(`weather_data['location']['name']`, `['country']`). -/
structure LocationInfo where
  name : String
  country : String
  deriving DecidableEq

/-- Fields of the provider JSON `current` object used by the bots
(`temp_c`, `humidity`, `cloud`, `wind_kph`, `condition['text']`). -/
structure CurrentInfo where
  temp_c : Int
  humidity : Int
  cloud : Int
  wind_kph : Int
  condition_text : String
  deriving DecidableEq

/-- A parsed weather-provider response body (`response.json()`). -/
structure WeatherData where
  location : LocationInfo
  current : CurrentInfo
  deriving DecidableEq

/-- Outcome of the weather-provider HTTP GET (`requests.get`): a response with
a status code and, when the body parses into the expected shape, its JSON
payload; or a raised transport-level exception. -/
inductive HttpOutcome where
  | response (status_code : Nat) (json : Option WeatherData)
  | exn (msg : String)
  deriving DecidableEq

/-- One backend invocation performed by the orchestrator, recorded for the
invocation trace. -/
inductive Call where
  | classify (query : String)
  | extract (query : String)
  | fetch (location : String)
  | compose (query : String)
  deriving DecidableEq

namespace WeatherBot

/-- Embeds `weather_bot.py:get_weather_by_location`: status 200 returns the
parsed JSON, status 400 returns `None` silently, any other status prints an
error and returns `None`, and a raised exception (including a JSON decode
failure on a 200 body) prints an error and returns `None`.  The second
component is the list of printed log lines. -/
def get_weather_by_location (net : String → HttpOutcome) (location_name : String) :
    Option WeatherData × List String :=
  match net location_name with
  | HttpOutcome.response 200 (some data) => (some data, [])
  | HttpOutcome.response 200 none =>
      (none, [r"Error connecting to weather API: invalid JSON body"])
  | HttpOutcome.response 400 _ => (none, [])
  | HttpOutcome.response code _ =>
      (none, [r"Error: API request failed with status code " ++ toString code])
  | HttpOutcome.exn e => (none, [r"Error connecting to weather API: " ++ e])

/-- Embeds `weather_bot.py:extract_location_from_query`: strips the backend
reply, compares it to the sentinel `"UNKNOWN"` case-SENSITIVELY, and maps the
sentinel or a raised exception to `none`. -/
def extract_location_from_query (llm : String → LLMOutcome) (query : String) :
    Option String :=
  match llm query with
  | LLMOutcome.reply t =>
      let location := py_strip t
      if location = "UNKNOWN" then none else some location
  | LLMOutcome.exn _ => none

/-- Embeds `weather_bot.py:is_weather_query`: strips the backend reply and
compares it to `"YES"` case-SENSITIVELY; a raised exception defaults the
verdict to `true`. -/
def is_weather_query (llm : String → LLMOutcome) (query : String) : Bool :=
  match llm query with
  | LLMOutcome.reply t => py_strip t == "YES"
  | LLMOutcome.exn _ => true

/-- Embeds `weather_bot.py:generate_weather_response`: on a successful backend
call returns the stripped completion; if the call raises, returns the
deterministic fallback template built from the record. -/
def generate_weather_response (llm : String → WeatherData → LLMOutcome)
    (query : String) (weather_data : WeatherData) : String :=
  match llm query weather_data with
  | LLMOutcome.reply t => py_strip t
  | LLMOutcome.exn _ =>
      r"The current weather in " ++ weather_data.location.name ++
      r" is a temperature of " ++ toString weather_data.current.temp_c ++
      r" degrees (C), a humidity of " ++ toString weather_data.current.humidity ++
      r"%, " ++
      (if weather_data.current.cloud > 50 then r"there are a lot of clouds"
       else r"there are few clouds") ++
      r" in the sky and a wind of " ++ toString weather_data.current.wind_kph ++
      r"km/h."

/-- The fixed redirect message returned when the classifier verdict is false. -/
def redirect_message : String :=
  "I\x27m a weather assistant. Please ask me about the weather in a specific location."

/-- The fixed clarification message returned when no location is identified. -/
def clarification_message : String :=
  "I couldn\x27t determine which location you\x27re asking about. Could you please specify a city or place?"

/-- The templated not-found message naming the location. -/
def not_found_message (location : String) : String :=
  "I couldn\x27t find weather information for \x27" ++ location ++
  "\x27. Please check the spelling or try a different location."

/-- Embeds `weather_bot.py:handle_user_query`, additionally recording the
trace of backend invocations.  Python's `if not location:` is falsy for both
`None` and the empty string, hence the explicit empty-string check. -/
def handle_user_query (classify_llm extract_llm : String → LLMOutcome)
    (net : String → HttpOutcome) (compose_llm : String → WeatherData → LLMOutcome)
    (query : String) : String × List Call :=
  if is_weather_query classify_llm query = false then
    (redirect_message, [Call.classify query])
  else
    match extract_location_from_query extract_llm query with
    | none => (clarification_message, [Call.classify query, Call.extract query])
    | some location =>
      if location = "" then
        (clarification_message, [Call.classify query, Call.extract query])
      else
        match (get_weather_by_location net location).fst with
        | none =>
            (not_found_message location,
             [Call.classify query, Call.extract query, Call.fetch location])
        | some weather_data =>
            (generate_weather_response compose_llm query weather_data,
             [Call.classify query, Call.extract query, Call.fetch location,
              Call.compose query])

/-- One turn of the interactive loop in `weather_bot.py:main`: an exit keyword
(matched against the LOWERCASED but UNSTRIPPED line) terminates, an input that
strips to empty re-prompts, and anything else is answered by the pipeline. -/
inductive LoopAction where
  | halt
  | reprompt
  | answer (reply : String)
  deriving DecidableEq

/-- The recognized exit keywords of `weather_bot.py:main`. -/
def exit_keywords : List String := [r"exit", r"quit", r"bye", r"goodbye"]

/-- Embeds the body of the `while True` loop of `weather_bot.py:main` for one
line of user input. -/
def loop_step (classify_llm extract_llm : String → LLMOutcome)
    (net : String → HttpOutcome) (compose_llm : String → WeatherData → LLMOutcome)
    (user_input : String) : LoopAction :=
  if exit_keywords.contains (py_lower user_input) then LoopAction.halt
  else if py_strip user_input = "" then LoopAction.reprompt
  else LoopAction.answer
    (handle_user_query classify_llm extract_llm net compose_llm user_input).fst

end WeatherBot

namespace WeatherBotGemini

/-- Embeds `weather_bot_gemini.py:extract_location_from_query`: identical to
the Claude binding, with the case-SENSITIVE sentinel comparison. -/
def extract_location_from_query (llm : String → LLMOutcome) (query : String) :
    Option String :=
  match llm query with
  | LLMOutcome.reply t =>
      let location := py_strip t
      if location = "UNKNOWN" then none else some location
  | LLMOutcome.exn _ => none

/-- Embeds `weather_bot_gemini.py:is_weather_query`: case-SENSITIVE comparison
of the stripped reply to `"YES"`; a raised exception defaults to `true`. -/
def is_weather_query (llm : String → LLMOutcome) (query : String) : Bool :=
  match llm query with
  | LLMOutcome.reply t => py_strip t == "YES"
  | LLMOutcome.exn _ => true

end WeatherBotGemini

namespace WeatherBotOpenAI

/-- Embeds `weather_bot_openai.py:extract_location_from_query`: the stripped
reply is compared to the sentinel via `location.upper() == "UNKNOWN"`,
i.e. case-INSENSITIVELY. -/
def extract_location_from_query (llm : String → LLMOutcome) (query : String) :
    Option String :=
  match llm query with
  | LLMOutcome.reply t =>
      let location := py_strip t
      if py_upper location = "UNKNOWN" then none else some location
  | LLMOutcome.exn _ => none

/-- Embeds `weather_bot_openai.py:is_weather_query`: compares via
`is_weather.upper() == "YES"`, i.e. case-INSENSITIVELY; a raised exception
defaults to `true`. -/
def is_weather_query (llm : String → LLMOutcome) (query : String) : Bool :=
  match llm query with
  | LLMOutcome.reply t => py_upper (py_strip t) == "YES"
  | LLMOutcome.exn _ => true

end WeatherBotOpenAI

namespace WeatherBotGroq

/-- Embeds `ex03/weather_bot_groq.py:get_weather_by_location` (same logic as
the Claude binding). -/
def get_weather_by_location (net : String → HttpOutcome) (location_name : String) :
    Option WeatherData × List String :=
  match net location_name with
  | HttpOutcome.response 200 (some data) => (some data, [])
  | HttpOutcome.response 200 none =>
      (none, [r"Error connecting to weather API: invalid JSON body"])
  | HttpOutcome.response 400 _ => (none, [])
  | HttpOutcome.response code _ =>
      (none, [r"Error: API request failed with status code " ++ toString code])
  | HttpOutcome.exn e => (none, [r"Error connecting to weather API: " ++ e])

/-- Embeds `ex03/weather_bot_groq.py:extract_location_from_query`: sentinel
compared via `location.upper() == "UNKNOWN"`, i.e. case-INSENSITIVELY. -/
def extract_location_from_query (llm : String → LLMOutcome) (query : String) :
    Option String :=
  match llm query with
  | LLMOutcome.reply t =>
      let location := py_strip t
      if py_upper location = "UNKNOWN" then none else some location
  | LLMOutcome.exn _ => none

/-- Embeds `ex03/weather_bot_groq.py:is_weather_query`: compares via
`is_weather.upper() == "YES"`, i.e. case-INSENSITIVELY; a raised exception
defaults to `true`. -/
def is_weather_query (llm : String → LLMOutcome) (query : String) : Bool :=
  match llm query with
  | LLMOutcome.reply t => py_upper (py_strip t) == "YES"
  | LLMOutcome.exn _ => true

/-- Embeds `ex03/weather_bot_groq.py:generate_weather_response` (same fallback
template as the Claude binding). -/
def generate_weather_response (llm : String → WeatherData → LLMOutcome)
    (query : String) (weather_data : WeatherData) : String :=
  match llm query weather_data with
  | LLMOutcome.reply t => py_strip t
  | LLMOutcome.exn _ =>
      r"The current weather in " ++ weather_data.location.name ++
      r" is a temperature of " ++ toString weather_data.current.temp_c ++
      r" degrees (C), a humidity of " ++ toString weather_data.current.humidity ++
      r"%, " ++
      (if weather_data.current.cloud > 50 then r"there are a lot of clouds"
       else r"there are few clouds") ++
      r" in the sky and a wind of " ++ toString weather_data.current.wind_kph ++
      r"km/h."

/-- Embeds `ex03/weather_bot_groq.py:handle_user_query` with an invocation
trace (same orchestration as the Claude binding, over the Groq stage
functions). -/
def handle_user_query (classify_llm extract_llm : String → LLMOutcome)
    (net : String → HttpOutcome) (compose_llm : String → WeatherData → LLMOutcome)
    (query : String) : String × List Call :=
  if is_weather_query classify_llm query = false then
    (WeatherBot.redirect_message, [Call.classify query])
  else
    match extract_location_from_query extract_llm query with
    | none => (WeatherBot.clarification_message, [Call.classify query, Call.extract query])
    | some location =>
      if location = "" then
        (WeatherBot.clarification_message, [Call.classify query, Call.extract query])
      else
        match (get_weather_by_location net location).fst with
        | none =>
            (WeatherBot.not_found_message location,
             [Call.classify query, Call.extract query, Call.fetch location])
        | some weather_data =>
            (generate_weather_response compose_llm query weather_data,
             [Call.classify query, Call.extract query, Call.fetch location,
              Call.compose query])

end WeatherBotGroq

namespace Weather

/-- The generic format error message of `weather.py:validate_coordinates`. -/
def invalid_format_message (coord_type : String) : String :=
  r"Invalid " ++ coord_type ++ r" format. Please enter a number."

/-- The body of the `try` block of `weather.py:validate_coordinates`: Python
`float(value)` is abstracted as the `Option ℚ` argument (`none` when the
string does not parse, in which case `float` raises `ValueError`); an
out-of-range coordinate raises the range-specific `ValueError`. -/
def validate_coordinates_body (parsed : Option ℚ) (coord_type : String) :
    Except String ℚ :=
  match parsed with
  | none => Except.error (r"could not convert string to float")
  | some coordinate =>
    if coord_type = "latitude" ∧ (coordinate < -90 ∨ coordinate > 90) then
      Except.error (r"Latitude must be between -90 and 90 degrees")
    else if coord_type = "longitude" ∧ (coordinate < -180 ∨ coordinate > 180) then
      Except.error (r"Longitude must be between -180 and 180 degrees")
    else Except.ok coordinate

/-- Embeds `weather.py:validate_coordinates`: every `ValueError` raised inside
the `try` block — including the range-specific ones — is caught by the
enclosing `except ValueError` and replaced by the generic format message. -/
def validate_coordinates (parsed : Option ℚ) (coord_type : String) :
    Except String ℚ :=
  match validate_coordinates_body parsed coord_type with
  | Except.ok coordinate => Except.ok coordinate
  | Except.error _ => Except.error (invalid_format_message coord_type)

/-- Embeds `weather.py:get_weather`: a missing or empty API key returns `None`
without contacting the provider; otherwise one request is issued and only a
200 response with a parseable body yields data.  The second component is the
list of provider requests issued (as latitude-longitude pairs). -/
def get_weather (api_key : Option String) (net : ℚ → ℚ → HttpOutcome)
    (latitude longitude : ℚ) : Option WeatherData × List (ℚ × ℚ) :=
  match api_key with
  | none => (none, [])
  | some k =>
    if k = "" then (none, [])
    else
      match net latitude longitude with
      | HttpOutcome.response 200 (some data) => (some data, [(latitude, longitude)])
      | HttpOutcome.response _ _ => (none, [(latitude, longitude)])
      | HttpOutcome.exn _ => (none, [(latitude, longitude)])

/-- Models the validate-then-fetch sequencing of `weather.py:main` (lines
132-152) for one candidate pair of inputs, without the re-prompt loops: each
coordinate must pass `validate_coordinates` before the provider is contacted.
The second component is the list of provider requests issued. -/
def fetch_validated (api_key : Option String) (net : ℚ → ℚ → HttpOutcome)
    (lat_input lon_input : Option ℚ) :
    Except String (Option WeatherData) × List (ℚ × ℚ) :=
  match validate_coordinates lat_input (r"latitude") with
  | Except.error e => (Except.error e, [])
  | Except.ok latitude =>
    match validate_coordinates lon_input (r"longitude") with
    | Except.error e => (Except.error e, [])
    | Except.ok longitude =>
      match get_weather api_key net latitude longitude with
      | (data, calls) => (Except.ok data, calls)

end Weather

/-! Concrete oracles and tokens used by the witness theorems. -/

/-- A sample non-weather query. -/
def joke_query : String := "Tell me a joke"

/-- A backend oracle that always completes with the token `NO`. -/
def no_llm : String → LLMOutcome := fun _ => LLMOutcome.reply (r"NO")

/-- A backend oracle that always completes with the token `YES`. -/
def yes_llm : String → LLMOutcome := fun _ => LLMOutcome.reply (r"YES")

/-- An unparseable single-token backend completion. -/
def maybe_token : String := "MAYBE"

/-- A lowercase `yes` backend completion. -/
def lower_yes_token : String := "yes"

/-- A mixed-case, whitespace-padded `YES` backend completion. -/
def mixed_yes_token : String := " Yes "

/-- A sample backend exception message. -/
def err_token : String := "connection refused"

/-- A weather-provider oracle whose transport always fails. -/
def net_down : String → HttpOutcome := fun _ => HttpOutcome.exn (r"network down")

/-- A composer oracle whose backend call always raises. -/
def compose_down : String → WeatherData → LLMOutcome :=
  fun _ _ => LLMOutcome.exn (r"network down")

/-- The message carried by the failing oracles. -/
def net_down_msg : String := "network down"

/-- A lowercase rendering of the extractor sentinel. -/
def unknown_lower_token : String := "unknown"

/-- A sample weather query without an apostrophe. -/
def paris_query : String := "How is the weather in Paris?"

/-- A sample extracted location. -/
def paris_token : String := "Paris"

/-- A sample country. -/
def france_token : String := "France"

/-- A sample condition text. -/
def sunny_token : String := "Sunny"

/-- A backend oracle that always extracts `Paris`. -/
def paris_llm : String → LLMOutcome := fun _ => LLMOutcome.reply (r"Paris")

/-- A weather-provider oracle that always answers with HTTP status 500. -/
def net500 : String → HttpOutcome := fun _ => HttpOutcome.response 500 none

/-- A coordinate-form weather-provider oracle whose transport always fails. -/
def net_coords_down : ℚ → ℚ → HttpOutcome := fun _ _ => HttpOutcome.exn (r"network down")

/-- A sample provider API key. -/
def api_key_token : String := "secret-key"

/-- The `while` loop input of claim C9: an exit keyword padded with spaces. -/
def padded_exit_input : String := " exit "

/-- cloud = 50: the boundary record for the fallback template threshold. -/
def boundary_record : WeatherData :=
  { location := { name := paris_token, country := france_token }
    current :=
      { temp_c := 30, humidity := 40, cloud := 50, wind_kph := 15
        condition_text := sunny_token } }

/-- The record of spec Scenario E (temp 30, humidity 40, cloud 80, wind 15). -/
def scenario_e_record : WeatherData :=
  { location := { name := paris_token, country := france_token }
    current :=
      { temp_c := 30, humidity := 40, cloud := 80, wind_kph := 15
        condition_text := sunny_token } }

/-- C1: for every query on which the classifier verdict is false, `handle`
returns exactly the fixed redirect message, for every behavior of the
location-extractor, weather-provider and composer backends, and the
invocation trace contains no extractor call and no fetcher call — in both the
Claude (`weather_bot.py`) and Groq (`ex03/weather_bot_groq.py`) bindings. -/
theorem c1_classifier_false_redirects
    (classify_llm extract_llm : String → LLMOutcome)
    (net : String → HttpOutcome) (compose_llm : String → WeatherData → LLMOutcome)
    (query : String) :
    (WeatherBot.is_weather_query classify_llm query = false →
      WeatherBot.handle_user_query classify_llm extract_llm net compose_llm query
          = (WeatherBot.redirect_message, [Call.classify query])
        ∧ (∀ q, Call.extract q ∉
            (WeatherBot.handle_user_query classify_llm extract_llm net compose_llm query).snd)
        ∧ (∀ l, Call.fetch l ∉
            (WeatherBot.handle_user_query classify_llm extract_llm net compose_llm query).snd))
    ∧ (WeatherBotGroq.is_weather_query classify_llm query = false →
      WeatherBotGroq.handle_user_query classify_llm extract_llm net compose_llm query
          = (WeatherBot.redirect_message, [Call.classify query])
        ∧ (∀ q, Call.extract q ∉
            (WeatherBotGroq.handle_user_query classify_llm extract_llm net compose_llm query).snd)
        ∧ (∀ l, Call.fetch l ∉
            (WeatherBotGroq.handle_user_query classify_llm extract_llm net compose_llm query).snd)) := by
  constructor
  · intro h
    have he : WeatherBot.handle_user_query classify_llm extract_llm net compose_llm query
        = (WeatherBot.redirect_message, [Call.classify query]) := by
      simp [WeatherBot.handle_user_query, h]
    refine ⟨he, ?_, ?_⟩
    · intro q; rw [he]; simp
    · intro l; rw [he]; simp
  · intro h
    have he : WeatherBotGroq.handle_user_query classify_llm extract_llm net compose_llm query
        = (WeatherBot.redirect_message, [Call.classify query]) := by
      simp [WeatherBotGroq.handle_user_query, h]
    refine ⟨he, ?_, ?_⟩
    · intro q; rw [he]; simp
    · intro l; rw [he]; simp

/-- C1 witness: with a backend that classifies `"Tell me a joke"` as `NO`, the
Claude-binding orchestrator returns the redirect message and invokes only the
classifier. -/
theorem c1_classifier_false_redirects_witness :
    WeatherBot.is_weather_query no_llm joke_query = false
    ∧ WeatherBot.handle_user_query no_llm no_llm net_down compose_down joke_query
        = (WeatherBot.redirect_message, [Call.classify joke_query]) :=
  ⟨rfl, ((c1_classifier_false_redirects no_llm no_llm net_down compose_down joke_query).1 rfl).1⟩

/-- C2 counterexample: the backend reply `"MAYBE"` is unparseable, yet the
classification verdict of `weather_bot.py:is_weather_query` is `false`, not
`true` as the claim states. -/
theorem c2_counterexample_unparseable_is_false :
    WeatherBot.is_weather_query (fun _ => LLMOutcome.reply maybe_token) joke_query = false := rfl

/-- C2 (amended): the verdict defaults to `true` only when the backend call
raises; a backend reply that is unparseable (its stripped text is not the YES
token, even up to case) yields verdict `false` — in both the Claude and
OpenAI bindings. -/
theorem c2_amended_fail_open_only_on_exception
    (query e t : String) (ht : py_upper (py_strip t) ≠ "YES") :
    WeatherBot.is_weather_query (fun _ => LLMOutcome.exn e) query = true
    ∧ WeatherBotOpenAI.is_weather_query (fun _ => LLMOutcome.exn e) query = true
    ∧ WeatherBot.is_weather_query (fun _ => LLMOutcome.reply t) query = false
    ∧ WeatherBotOpenAI.is_weather_query (fun _ => LLMOutcome.reply t) query = false := by
  refine ⟨rfl, rfl, ?_, ?_⟩
  · simp only [WeatherBot.is_weather_query, beq_eq_false_iff_ne, ne_eq]
    intro hc
    exact ht (by rw [hc]; decide)
  · simp only [WeatherBotOpenAI.is_weather_query, beq_eq_false_iff_ne, ne_eq]
    exact ht

/-- C2 witness: the unparseable reply `"MAYBE"` yields verdict `false` in both
bindings, while an exception yields `true`. -/
theorem c2_amended_fail_open_only_on_exception_witness :
    py_upper (py_strip maybe_token) ≠ "YES"
    ∧ WeatherBot.is_weather_query (fun _ => LLMOutcome.exn err_token) joke_query = true
    ∧ WeatherBot.is_weather_query (fun _ => LLMOutcome.reply maybe_token) joke_query = false :=
  ⟨by decide,
   (c2_amended_fail_open_only_on_exception joke_query err_token maybe_token (by decide)).1,
   (c2_amended_fail_open_only_on_exception joke_query err_token maybe_token (by decide)).2.2.1⟩

/-- C3 counterexample: in the Claude binding the backend reply `"yes"`
(lowercase) yields verdict `false`, so the YES token is NOT parsed
case-insensitively in every binding. -/
theorem c3_counterexample_lowercase_yes_rejected :
    WeatherBot.is_weather_query (fun _ => LLMOutcome.reply lower_yes_token) joke_query = false := rfl

/-- C3 (amended): the OpenAI and Groq bindings parse the YES token
case-insensitively (any letter case, surrounded by whitespace, yields verdict
`true`), while the Claude and Gemini bindings compare case-sensitively: their
verdict is `true` exactly when the stripped reply is exactly `"YES"`. -/
theorem c3_amended_case_insensitive_only_openai_groq
    (query t : String) (ht : py_upper (py_strip t) = "YES") :
    WeatherBotOpenAI.is_weather_query (fun _ => LLMOutcome.reply t) query = true
    ∧ WeatherBotGroq.is_weather_query (fun _ => LLMOutcome.reply t) query = true
    ∧ (WeatherBot.is_weather_query (fun _ => LLMOutcome.reply t) query = true ↔ py_strip t = "YES")
    ∧ (WeatherBotGemini.is_weather_query (fun _ => LLMOutcome.reply t) query = true
        ↔ py_strip t = "YES") := by
  refine ⟨?_, ?_, ?_, ?_⟩
  · simp [WeatherBotOpenAI.is_weather_query, ht]
  · simp [WeatherBotGroq.is_weather_query, ht]
  · simp [WeatherBot.is_weather_query]
  · simp [WeatherBotGemini.is_weather_query]

/-- C3 witness: the padded mixed-case reply `" Yes "` yields verdict `true` in
the OpenAI binding. -/
theorem c3_amended_case_insensitive_only_openai_groq_witness :
    py_upper (py_strip mixed_yes_token) = "YES"
    ∧ WeatherBotOpenAI.is_weather_query
        (fun _ => LLMOutcome.reply mixed_yes_token) joke_query = true :=
  ⟨by decide,
   (c3_amended_case_insensitive_only_openai_groq joke_query mixed_yes_token (by decide)).1⟩

/-- An out-of-range latitude makes `validate_coordinates` fail with the
generic format message. -/
theorem validate_lat_out (v : ℚ) (h : v < -90 ∨ 90 < v) :
    Weather.validate_coordinates (some v) (r"latitude")
      = Except.error (Weather.invalid_format_message (r"latitude")) := by
  have hb : Weather.validate_coordinates_body (some v) (r"latitude")
      = Except.error (r"Latitude must be between -90 and 90 degrees") := by
    rcases h with h | h <;>
      simp [Weather.validate_coordinates_body, h]
  unfold Weather.validate_coordinates
  rw [hb]

/-- An out-of-range longitude makes `validate_coordinates` fail with the
generic format message. -/
theorem validate_lon_out (v : ℚ) (h : v < -180 ∨ 180 < v) :
    Weather.validate_coordinates (some v) (r"longitude")
      = Except.error (Weather.invalid_format_message (r"longitude")) := by
  have hs : ¬((r"longitude" : String) = "latitude") := by decide
  have hb : Weather.validate_coordinates_body (some v) (r"longitude")
      = Except.error (r"Longitude must be between -180 and 180 degrees") := by
    rcases h with h | h <;>
      simp [Weather.validate_coordinates_body, hs, h]
  unfold Weather.validate_coordinates
  rw [hb]

/-- An in-range latitude passes `validate_coordinates`. -/
theorem validate_lat_in (v : ℚ) (h1 : -90 ≤ v) (h2 : v ≤ 90) :
    Weather.validate_coordinates (some v) (r"latitude") = Except.ok v := by
  have hs : ¬((r"latitude" : String) = "longitude") := by decide
  have hb : Weather.validate_coordinates_body (some v) (r"latitude")
      = Except.ok v := by
    simp [Weather.validate_coordinates_body, hs, not_lt.mpr h1, not_lt.mpr h2]
  unfold Weather.validate_coordinates
  rw [hb]

/-- C4: an out-of-range latitude, or an in-range latitude followed by an
out-of-range longitude, is rejected by the validate-then-fetch sequencing with
a validation error, and the list of provider requests issued is empty (the
value is not clamped and no network call is made). -/
theorem c4_out_of_range_rejected_before_network
    (api_key : Option String) (net : ℚ → ℚ → HttpOutcome)
    (v lv : ℚ) (lon_input : Option ℚ) :
    ((v < -90 ∨ 90 < v) →
      Weather.fetch_validated api_key net (some v) lon_input
        = (Except.error (Weather.invalid_format_message (r"latitude")), []))
    ∧ (-90 ≤ lv → lv ≤ 90 → (v < -180 ∨ 180 < v) →
      Weather.fetch_validated api_key net (some lv) (some v)
        = (Except.error (Weather.invalid_format_message (r"longitude")), [])) := by
  constructor
  · intro h
    unfold Weather.fetch_validated
    rw [validate_lat_out v h]
  · intro h1 h2 h3
    unfold Weather.fetch_validated
    rw [validate_lat_in lv h1 h2, validate_lon_out v h3]

/-- C4 witness: latitude 91 is rejected with the generic validation error and
no provider request is issued. -/
theorem c4_out_of_range_rejected_before_network_witness :
    ((91 : ℚ) < -90 ∨ (90 : ℚ) < 91)
    ∧ Weather.fetch_validated (some api_key_token) net_coords_down (some 91) none
        = (Except.error (Weather.invalid_format_message (r"latitude")), []) :=
  ⟨Or.inr (by norm_num),
   (c4_out_of_range_rejected_before_network (some api_key_token) net_coords_down
      91 0 none).1 (Or.inr (by norm_num))⟩

/-- C5: `get_weather_by_location` maps every non-200 status (the 400
"location not found" class included) and every transport-level exception to
the absence value `none`, never raising; and the orchestrator maps that
absence uniformly to the not-found message naming the location. -/
theorem c5_absence_uniform
    (net : String → HttpOutcome)
    (classify_llm extract_llm : String → LLMOutcome)
    (compose_llm : String → WeatherData → LLMOutcome)
    (query location : String) (code : Nat) (j : Option WeatherData) (e : String) :
    (net location = HttpOutcome.response code j → code ≠ 200 →
      (WeatherBot.get_weather_by_location net location).fst = none)
    ∧ (net location = HttpOutcome.exn e →
      (WeatherBot.get_weather_by_location net location).fst = none)
    ∧ (WeatherBot.is_weather_query classify_llm query = true →
      WeatherBot.extract_location_from_query extract_llm query = some location →
      location ≠ "" →
      (WeatherBot.get_weather_by_location net location).fst = none →
      (WeatherBot.handle_user_query classify_llm extract_llm net compose_llm query).fst
        = WeatherBot.not_found_message location) := by
  refine ⟨?_, ?_, ?_⟩
  · intro hn hc
    unfold WeatherBot.get_weather_by_location
    rw [hn]
    split <;> simp_all
  · intro hn
    unfold WeatherBot.get_weather_by_location
    rw [hn]
  · intro hq hx hl hf
    simp [WeatherBot.handle_user_query, hq, hx, hl, hf]

/-- C5 witness: with a provider answering HTTP 500, the orchestrator returns
the not-found message naming `Paris`. -/
theorem c5_absence_uniform_witness :
    WeatherBot.is_weather_query yes_llm paris_query = true
    ∧ (WeatherBot.get_weather_by_location net500 paris_token).fst = none
    ∧ (WeatherBot.handle_user_query yes_llm paris_llm net500 compose_down paris_query).fst
        = WeatherBot.not_found_message paris_token :=
  ⟨by decide, by decide,
   (c5_absence_uniform net500 yes_llm paris_llm compose_down paris_query paris_token
      500 none err_token).2.2 (by decide) (by decide) (by decide) (by decide)⟩

/-- Splitting a concatenation around a substring of its closed tail. -/
theorem exists_split_of_tail (a b T s g1 g2 : String) (h : T = g1 ++ (s ++ g2)) :
    ∃ p q, a ++ (b ++ T) = p ++ s ++ q :=
  ⟨a ++ (b ++ g1), g2, by rw [h]; simp only [String.append_assoc]⟩

/-- C6: in the fallback template the cloud-cover threshold is strict — cloud
cover strictly above 50 produces the "a lot of clouds" sentence, and cloud
cover at most 50 (50 itself included) produces the "few clouds" sentence. -/
theorem c6_cloud_threshold_strict
    (compose_llm : String → WeatherData → LLMOutcome) (query : String)
    (d : WeatherData) (e : String)
    (hf : compose_llm query d = LLMOutcome.exn e) :
    (50 < d.current.cloud →
      ∃ pre post, WeatherBot.generate_weather_response compose_llm query d
        = pre ++ r"there are a lot of clouds" ++ post)
    ∧ (d.current.cloud ≤ 50 →
      ∃ pre post, WeatherBot.generate_weather_response compose_llm query d
        = pre ++ r"there are few clouds" ++ post) := by
  have hg : WeatherBot.generate_weather_response compose_llm query d =
      r"The current weather in " ++ d.location.name ++
      r" is a temperature of " ++ toString d.current.temp_c ++
      r" degrees (C), a humidity of " ++ toString d.current.humidity ++
      r"%, " ++
      (if d.current.cloud > 50 then r"there are a lot of clouds"
       else r"there are few clouds") ++
      r" in the sky and a wind of " ++ toString d.current.wind_kph ++
      r"km/h." := by
    unfold WeatherBot.generate_weather_response
    rw [hf]
  constructor
  · intro hcl
    refine ⟨r"The current weather in " ++ d.location.name ++
        r" is a temperature of " ++ toString d.current.temp_c ++
        r" degrees (C), a humidity of " ++ toString d.current.humidity ++ r"%, ",
      r" in the sky and a wind of " ++ toString d.current.wind_kph ++ r"km/h.", ?_⟩
    rw [hg, if_pos hcl]
    simp only [String.append_assoc]
  · intro hcl
    refine ⟨r"The current weather in " ++ d.location.name ++
        r" is a temperature of " ++ toString d.current.temp_c ++
        r" degrees (C), a humidity of " ++ toString d.current.humidity ++ r"%, ",
      r" in the sky and a wind of " ++ toString d.current.wind_kph ++ r"km/h.", ?_⟩
    rw [hg, if_neg (not_lt.mpr hcl)]
    simp only [String.append_assoc]

/-- C6 witness: at cloud cover exactly 50 the fallback says "few clouds". -/
theorem c6_cloud_threshold_strict_witness :
    boundary_record.current.cloud ≤ 50
    ∧ ∃ pre post,
        WeatherBot.generate_weather_response compose_down paris_query boundary_record
          = pre ++ r"there are few clouds" ++ post :=
  ⟨by decide,
   (c6_cloud_threshold_strict compose_down paris_query boundary_record
      net_down_msg rfl).2 (by decide)⟩

/-- C7: when the composer backend raises on a record with temp 30, humidity
40, cloud 80 and wind 15 (spec Scenario E), the fallback reply contains the
substrings "30", "40%", "a lot of clouds" and "15km/h", for every query and
every location name. -/
theorem c7_scenario_e_fallback_substrings
    (compose_llm : String → WeatherData → LLMOutcome)
    (query name country cond e : String)
    (hf : compose_llm query ⟨⟨name, country⟩, ⟨30, 40, 80, 15, cond⟩⟩ = LLMOutcome.exn e) :
    (∃ p q, WeatherBot.generate_weather_response compose_llm query
        ⟨⟨name, country⟩, ⟨30, 40, 80, 15, cond⟩⟩ = p ++ r"30" ++ q)
    ∧ (∃ p q, WeatherBot.generate_weather_response compose_llm query
        ⟨⟨name, country⟩, ⟨30, 40, 80, 15, cond⟩⟩ = p ++ r"40%" ++ q)
    ∧ (∃ p q, WeatherBot.generate_weather_response compose_llm query
        ⟨⟨name, country⟩, ⟨30, 40, 80, 15, cond⟩⟩ = p ++ r"a lot of clouds" ++ q)
    ∧ (∃ p q, WeatherBot.generate_weather_response compose_llm query
        ⟨⟨name, country⟩, ⟨30, 40, 80, 15, cond⟩⟩ = p ++ r"15km/h" ++ q) := by
  have hg : WeatherBot.generate_weather_response compose_llm query
      ⟨⟨name, country⟩, ⟨30, 40, 80, 15, cond⟩⟩
      = r"The current weather in " ++
        (name ++
          (r" is a temperature of 30 degrees (C), a humidity of 40%, there are a lot of clouds in the sky and a wind of 15km/h.")) := by
    unfold WeatherBot.generate_weather_response
    rw [hf]
    have h30 : toString (30 : Int) = "30" := by decide
    have h40 : toString (40 : Int) = "40" := by decide
    have h15 : toString (15 : Int) = "15" := by decide
    have hcl : ((80 : Int) > 50) = True := by decide
    simp only [h30, h40, h15, hcl, if_true]
    simp only [String.append_assoc]
    congr 1
  refine ⟨?_, ?_, ?_, ?_⟩ <;> rw [hg]
  · exact exists_split_of_tail _ _ _ _ (r" is a temperature of ")
      (r" degrees (C), a humidity of 40%, there are a lot of clouds in the sky and a wind of 15km/h.")
      (by decide)
  · exact exists_split_of_tail _ _ _ _ (r" is a temperature of 30 degrees (C), a humidity of ")
      (r", there are a lot of clouds in the sky and a wind of 15km/h.")
      (by decide)
  · exact exists_split_of_tail _ _ _ _
      (r" is a temperature of 30 degrees (C), a humidity of 40%, there are ")
      (r" in the sky and a wind of 15km/h.")
      (by decide)
  · exact exists_split_of_tail _ _ _ _
      (r" is a temperature of 30 degrees (C), a humidity of 40%, there are a lot of clouds in the sky and a wind of ")
      (r".")
      (by decide)

/-- C7 witness: with the failing composer and the Scenario-E record, the
fallback reply contains "40%". -/
theorem c7_scenario_e_fallback_substrings_witness :
    compose_down paris_query scenario_e_record = LLMOutcome.exn net_down_msg
    ∧ (∃ p q, WeatherBot.generate_weather_response compose_down paris_query scenario_e_record
        = p ++ r"40%" ++ q) :=
  ⟨rfl,
   (c7_scenario_e_fallback_substrings compose_down paris_query paris_token
      france_token sunny_token net_down_msg rfl).2.1⟩

/-- C8: on the lowercase backend reply `"unknown"`, the Claude and Gemini
extractor bindings (case-sensitive sentinel comparison) return it as a
location, while the OpenAI and Groq bindings (case-insensitive comparison)
return the absence value — so the four bindings are not extensionally
equal. -/
theorem c8_sentinel_case_divergence (query : String) :
    WeatherBot.extract_location_from_query
        (fun _ => LLMOutcome.reply unknown_lower_token) query = some unknown_lower_token
    ∧ WeatherBotGemini.extract_location_from_query
        (fun _ => LLMOutcome.reply unknown_lower_token) query = some unknown_lower_token
    ∧ WeatherBotOpenAI.extract_location_from_query
        (fun _ => LLMOutcome.reply unknown_lower_token) query = none
    ∧ WeatherBotGroq.extract_location_from_query
        (fun _ => LLMOutcome.reply unknown_lower_token) query = none := by
  refine ⟨?_, ?_, ?_, ?_⟩ <;> rfl

/-- C9: the input line `" exit "` (an exit keyword surrounded by whitespace)
is not recognized as an exit command — the comparison lowercases the raw line
without stripping — and, since the stripped line is non-empty, the line is
passed to the pipeline as a query. -/
theorem c9_padded_exit_not_recognized
    (classify_llm extract_llm : String → LLMOutcome) (net : String → HttpOutcome)
    (compose_llm : String → WeatherData → LLMOutcome) :
    WeatherBot.exit_keywords.contains (py_lower padded_exit_input) = false
    ∧ py_strip padded_exit_input ≠ ""
    ∧ WeatherBot.loop_step classify_llm extract_llm net compose_llm padded_exit_input
        = WeatherBot.LoopAction.answer
            (WeatherBot.handle_user_query classify_llm extract_llm net compose_llm
              padded_exit_input).fst := by
  have h1 : WeatherBot.exit_keywords.contains (py_lower padded_exit_input) = false := by decide
  have h1m : py_lower padded_exit_input ∉ WeatherBot.exit_keywords := by decide
  have h2 : ¬(py_strip padded_exit_input = "") := by decide
  exact ⟨h1, h2, by simp [WeatherBot.loop_step, h1m, h2]⟩

/-- C10: for every numeric input whose value is out of the coordinate range,
`validate_coordinates` fails with the GENERIC format message ("Invalid …
format. Please enter a number.") — the range-specific `ValueError` raised in
the `try` block is caught by the enclosing `except ValueError` and
replaced. -/
theorem c10_range_error_shadowed_by_generic (v : ℚ) :
    ((v < -90 ∨ 90 < v) →
      Weather.validate_coordinates (some v) (r"latitude")
        = Except.error (Weather.invalid_format_message (r"latitude")))
    ∧ ((v < -180 ∨ 180 < v) →
      Weather.validate_coordinates (some v) (r"longitude")
        = Except.error (Weather.invalid_format_message (r"longitude")))
    ∧ Weather.invalid_format_message (r"latitude")
        = "Invalid latitude format. Please enter a number."
    ∧ Weather.invalid_format_message (r"longitude")
        = "Invalid longitude format. Please enter a number." :=
  ⟨validate_lat_out v, validate_lon_out v, by decide, by decide⟩

/-- C10 witness: numeric latitude 91 yields the generic format message. -/
theorem c10_range_error_shadowed_by_generic_witness :
    ((91 : ℚ) < -90 ∨ (90 : ℚ) < 91)
    ∧ Weather.validate_coordinates (some 91) (r"latitude")
        = Except.error (Weather.invalid_format_message (r"latitude")) :=
  ⟨Or.inr (by norm_num),
   (c10_range_error_shadowed_by_generic 91).1 (Or.inr (by norm_num))⟩

end DiscoWeather
